import Mathlib

/-!
Shallow embedding of the client-side game runtime (Raspberry Pi side) of the
photon-entropy repository: the module framework (`modules/base.py` and the
concrete puzzle variants), the game orchestrator (`game_controller.py`) and the
connectivity prober (`network/connectivity.py`).  Python dictionaries are
modelled as structures of `Option` fields read with `Option.getD` (mirroring
`dict.get(key, default)`), hardware callbacks become pure functions from a
module state to a new state together with the list of events the handler
reports (`on_action` / `on_strike` / `on_solved` callbacks of `BaseModule`).
-/

namespace PhotonEntropy

/-- `ModuleState` enum of `modules/base.py`. -/
inductive ModuleState where
  | inactive
  | active
  | solved
  | failed
deriving DecidableEq, Repr

/-- An observable event reported by a module handler: `_report_solved`,
`_report_strike` and `_report_action` of `BaseModule`. -/
inductive MEvent where
  | solvedEv
  | strikeEv
  | actionEv (name : String)
deriving DecidableEq, Repr

def isSolvedEv : MEvent → Bool
  | .solvedEv => true
  | _ => false

def isStrikeEv : MEvent → Bool
  | .strikeEv => true
  | _ => false

/-- Number of `on_solved` callbacks fired in an event trace. -/
def countSolved (evs : List MEvent) : Nat := evs.countP isSolvedEv

/-- Number of `on_strike` callbacks fired in an event trace. -/
def countStrikes (evs : List MEvent) : Nat := evs.countP isStrikeEv

/-! ## Wires module (`modules/wires.py`)

Four wires; `configure` only reads the key `"wire_enabled"` (there is no
required-cut-order key: validation is delegated to the server, the handler
`_on_button_press` merely marks the wire cut and reports a `"cut_wire"`
action).  Button indices range over the four wires. -/

/-- The `config` dict as consumed by `WiresModule.configure`: only the
`"wire_enabled"` key is read; every other key is ignored. -/
structure WiresConfig where
  wireEnabled : Option (List Bool)
deriving DecidableEq, Repr

structure WiresState where
  state : ModuleState
  wireEnabled : List Bool
  wireCut : List Bool
  leds : List Bool
deriving DecidableEq, Repr

/-- Initial state from `WiresModule.__init__`. -/
def wiresInit : WiresState :=
  { state := .inactive
    wireEnabled := [true, true, true, true]
    wireCut := [false, false, false, false]
    leds := [false, false, false, false] }

/-- `WiresModule.configure`. -/
def wiresConfigure (cfg : WiresConfig) (s : WiresState) : WiresState :=
  { s with wireEnabled := cfg.wireEnabled.getD [true, true, true, true] }

/-- `WiresModule.activate`: state becomes ACTIVE, all cut flags cleared, the
LED of each enabled wire is lit. -/
def wiresActivate (s : WiresState) : WiresState :=
  { s with state := .active
           wireCut := [false, false, false, false]
           leds := s.wireEnabled }

/-- `WiresModule.deactivate`. -/
def wiresDeactivate (s : WiresState) : WiresState :=
  { s with state := .inactive, leds := [false, false, false, false] }

/-- `WiresModule._on_button_press`: guarded on ACTIVE, on the wire being
present and not already cut; marks the wire cut, turns its LED off and reports
the `"cut_wire"` action to the server.  No local solved/strike is produced. -/
def wiresOnButtonPress (index : Nat) (s : WiresState) : WiresState × List MEvent :=
  if s.state ≠ .active then (s, [])
  else if ¬ (s.wireEnabled.getD index false) then (s, [])
  else if s.wireCut.getD index false then (s, [])
  else ({ s with wireCut := s.wireCut.set index true
                 leds := s.leds.set index false },
        [.actionEv "cut_wire"])

/-- `WiresModule.handle_server_response`. -/
def wiresHandleServerResponse (_success solved : Bool) (s : WiresState) :
    WiresState × List MEvent :=
  if solved then ({ s with state := .solved }, [.solvedEv]) else (s, [])

/-- Fold a sequence of button presses (wire cuts), accumulating events. -/
def wiresPressAll : List Nat → WiresState → WiresState × List MEvent
  | [], s => (s, [])
  | i :: rest, s =>
    let p := wiresOnButtonPress i s
    let q := wiresPressAll rest p.1
    (q.1, p.2 ++ q.2)

/-! ## Keypad module (`modules/keypad.py`) -/

/-- The `config` dict as consumed by `KeypadModule.configure`: only the
`"code"` key is read. -/
structure KeypadConfig where
  code : Option (List Nat)
deriving DecidableEq, Repr

structure KeypadState where
  state : ModuleState
  code : List Nat
  entered : List Nat
  currentDigit : Nat
deriving DecidableEq, Repr

def keypadInit : KeypadState :=
  { state := .inactive, code := [], entered := [], currentDigit := 0 }

/-- `KeypadModule.configure`. -/
def keypadConfigure (cfg : KeypadConfig) (s : KeypadState) : KeypadState :=
  { s with code := cfg.code.getD [1, 2, 3, 4] }

/-- `KeypadModule.activate` (the encoder is reset to its minimum value 0). -/
def keypadActivate (s : KeypadState) : KeypadState :=
  { s with state := .active, entered := [], currentDigit := 0 }

/-- `KeypadModule.deactivate`. -/
def keypadDeactivate (s : KeypadState) : KeypadState :=
  { s with state := .inactive }

/-- `KeypadModule._on_rotate`: records the rotary value and reports it. -/
def keypadOnRotate (value : Nat) (s : KeypadState) : KeypadState × List MEvent :=
  if s.state ≠ .active then (s, [])
  else ({ s with currentDigit := value }, [.actionEv "rotate"])

/-- `KeypadModule._on_confirm`: on a correct digit the digit is appended and
the encoder reset; completing the code reports solved.  On a wrong digit a
strike is reported and the entered progress is cleared (the code itself is
untouched). -/
def keypadOnConfirm (s : KeypadState) : KeypadState × List MEvent :=
  if s.state ≠ .active then (s, [])
  else
    let digit := s.currentDigit
    let position := s.entered.length
    if position < s.code.length then
      if digit = s.code.getD position 0 then
        let entered := s.entered ++ [digit]
        if entered.length = s.code.length then
          ({ s with state := .solved, entered := entered, currentDigit := 0 },
           [.actionEv "confirm", .solvedEv])
        else
          ({ s with entered := entered, currentDigit := 0 },
           [.actionEv "confirm"])
      else
        ({ s with entered := [], currentDigit := 0 },
         [.actionEv "confirm", .strikeEv])
    else (s, [.actionEv "confirm"])

/-- Rotate the encoder to a digit, then confirm it (one player input). -/
def keypadEnter (d : Nat) (s : KeypadState) : KeypadState × List MEvent :=
  let p := keypadOnRotate d s
  let q := keypadOnConfirm p.1
  (q.1, p.2 ++ q.2)

/-- Enter a sequence of digits, accumulating the reported events. -/
def keypadEnterAll : List Nat → KeypadState → KeypadState × List MEvent
  | [], s => (s, [])
  | d :: rest, s =>
    let p := keypadEnter d s
    let q := keypadEnterAll rest p.1
    (q.1, p.2 ++ q.2)

/-! ## Simon module (`modules/simon.py`)

Only the pure input-validation logic of `_on_touch` is embedded; the display
threads (`_show_sequence`, `_cycle_colors`) drive `showingSequence` and
`currentColorIndex`, which are plain fields here. -/

structure SimonState where
  state : ModuleState
  sequence : List String
  totalRounds : Nat
  currentRound : Nat
  playerPosition : Nat
  showingSequence : Bool
  currentColorIndex : Nat
deriving DecidableEq, Repr

def simonColors : List String := ["red", "green", "blue", "yellow"]

/-- `SimonModule._on_touch`: ignored while inactive or while the sequence is
being shown; a touch on the matching color advances, a mismatch strikes and
resets the position within the current round. -/
def simonOnTouch (s : SimonState) : SimonState × List MEvent :=
  if s.state ≠ .active ∨ s.showingSequence then (s, [])
  else
    let selected := simonColors.getD s.currentColorIndex ""
    let expected := s.sequence.getD s.playerPosition ""
    if selected = expected then
      let pos := s.playerPosition + 1
      if pos ≥ s.currentRound then
        let round := s.currentRound + 1
        if round > s.totalRounds then
          ({ s with state := .solved, playerPosition := pos, currentRound := round },
           [.actionEv "touch", .solvedEv])
        else
          ({ s with playerPosition := 0, currentRound := round, showingSequence := true },
           [.actionEv "touch"])
      else
        ({ s with playerPosition := pos }, [.actionEv "touch"])
    else
      ({ s with playerPosition := 0 }, [.actionEv "touch", .strikeEv])

/-! ## Magnet module (`modules/magnet.py`)

`liveTimerTasks` counts the running `_timer_loop` threads.  `activate`
unconditionally constructs and starts a new `threading.Thread` and clears the
`_stop_timer` event, so any thread already running keeps running (its loop
condition `not stop and state == ACTIVE` stays true) while one more is
started.  `deactivate` sets the stop event and joins, stopping them all. -/

/-- The `config` dict as consumed by `MagnetModule.configure`: keys
`"safe_zones"` and `"required"`. -/
structure MagnetConfig where
  safeZones : Option (List (Nat × Nat))
  required : Option Nat
deriving DecidableEq, Repr

structure MagnetState where
  state : ModuleState
  safeZones : List (Nat × Nat)
  required : Nat
  successCount : Nat
  currentTime : Nat
  magnetWasApplied : Bool
  stopTimerSet : Bool
  liveTimerTasks : Nat
deriving DecidableEq, Repr

def magnetInit : MagnetState :=
  { state := .inactive
    safeZones := []
    required := 0
    successCount := 0
    currentTime := 0
    magnetWasApplied := false
    stopTimerSet := false
    liveTimerTasks := 0 }

/-- `MagnetModule.configure`. -/
def magnetConfigure (cfg : MagnetConfig) (s : MagnetState) : MagnetState :=
  { s with safeZones := cfg.safeZones.getD [(5, 10), (20, 25)]
           required := cfg.required.getD 2 }

/-- `MagnetModule.activate`: resets the progress counters, clears the stop
event, and starts one more timer thread (no guard against already being
active, and no join of a previous thread). -/
def magnetActivate (s : MagnetState) : MagnetState :=
  { s with state := .active
           successCount := 0
           currentTime := 0
           magnetWasApplied := false
           stopTimerSet := false
           liveTimerTasks := s.liveTimerTasks + 1 }

/-- `MagnetModule.deactivate`: sets the stop event and joins the thread. -/
def magnetDeactivate (s : MagnetState) : MagnetState :=
  { s with state := .inactive, stopTimerSet := true, liveTimerTasks := 0 }

/-- `MagnetModule._is_in_safe_zone`. -/
def magnetIsInSafeZone (zones : List (Nat × Nat)) (t : Nat) : Bool :=
  zones.any fun z => z.1 ≤ t ∧ t ≤ z.2

/-- `MagnetModule._on_magnet_change`. -/
def magnetOnMagnetChange (detected : Bool) (s : MagnetState) :
    MagnetState × List MEvent :=
  if s.state ≠ .active then (s, [])
  else if detected then
    let inSafe := magnetIsInSafeZone s.safeZones s.currentTime
    if inSafe then
      if ¬ s.magnetWasApplied then
        let succ := s.successCount + 1
        if succ ≥ s.required then
          ({ s with state := .solved, magnetWasApplied := true, successCount := succ },
           [.actionEv "magnet_applied", .solvedEv])
        else
          ({ s with magnetWasApplied := true, successCount := succ },
           [.actionEv "magnet_applied"])
      else (s, [.actionEv "magnet_applied"])
    else (s, [.actionEv "magnet_applied", .strikeEv])
  else (s, [])

/-! ## Stability module (`modules/stability.py`)

`hwTiltCount` is the `TiltSensor._tilt_count` hardware counter (incremented by
`TiltSensor._handle_tilt` on every tilt edge before the module callback runs);
`lastTiltCount` is the `last_tilt_count` local of the `_monitor_stability`
loop, initialised to 0 when the thread starts in `activate`.
`liveMonitorTasks` counts running monitor threads: as for the magnet module,
`activate` unconditionally starts a new thread and clears the stop event;
the monitor thread exits by itself after reporting solved (`break`). -/

/-- The `config` dict as consumed by `StabilityModule.configure`: keys
`"max_tilts"` and `"stable_duration"`. -/
structure StabilityConfig where
  maxTilts : Option Nat
  stableDuration : Option Nat
deriving DecidableEq, Repr

structure StabState where
  state : ModuleState
  maxTilts : Nat
  stableDuration : Nat
  tiltCount : Nat
  stableTime : Nat
  hwTiltCount : Nat
  lastTiltCount : Nat
  liveMonitorTasks : Nat
deriving DecidableEq, Repr

def stabInit : StabState :=
  { state := .inactive
    maxTilts := 3
    stableDuration := 30
    tiltCount := 0
    stableTime := 0
    hwTiltCount := 0
    lastTiltCount := 0
    liveMonitorTasks := 0 }

/-- `StabilityModule.configure`. -/
def stabConfigure (cfg : StabilityConfig) (s : StabState) : StabState :=
  { s with maxTilts := cfg.maxTilts.getD 3
           stableDuration := cfg.stableDuration.getD 30 }

/-- `StabilityModule.activate`: resets counters, resets the hardware tilt
counter, and starts one more monitor thread (no guard against already being
active). -/
def stabActivate (s : StabState) : StabState :=
  { s with state := .active
           tiltCount := 0
           stableTime := 0
           hwTiltCount := 0
           lastTiltCount := 0
           liveMonitorTasks := s.liveMonitorTasks + 1 }

/-- `StabilityModule.deactivate`. -/
def stabDeactivate (s : StabState) : StabState :=
  { s with state := .inactive, liveMonitorTasks := 0 }

/-- `StabilityModule._on_tilt` (the module callback alone, guarded on
ACTIVE): increments the tilt counter and zeroes the stable time; reaching
`max_tilts` reports a strike and resets the counter to 0. -/
def stabOnTilt (s : StabState) : StabState × List MEvent :=
  if s.state ≠ .active then (s, [])
  else
    let count := s.tiltCount + 1
    if count ≥ s.maxTilts then
      ({ s with tiltCount := 0, stableTime := 0 },
       [.actionEv "tilt", .strikeEv])
    else
      ({ s with tiltCount := count, stableTime := 0 },
       [.actionEv "tilt"])

/-- One physical tilt: `TiltSensor._handle_tilt` increments the hardware
counter, then invokes the module callback `_on_tilt`. -/
def stabTiltEvent (s : StabState) : StabState × List MEvent :=
  stabOnTilt { s with hwTiltCount := s.hwTiltCount + 1 }

/-- One iteration of the `_monitor_stability` loop body: if the hardware tilt
counter grew since the last check the stable time resets, else it increments;
reaching `stable_duration` reports solved and the thread breaks out. -/
def stabMonitorTick (s : StabState) : StabState × List MEvent :=
  if s.state ≠ .active then (s, [])
  else
    let stableTime := if s.hwTiltCount > s.lastTiltCount then 0 else s.stableTime + 1
    let s1 := { s with stableTime := stableTime, lastTiltCount := s.hwTiltCount }
    if stableTime ≥ s1.stableDuration then
      ({ s1 with state := .solved, liveMonitorTasks := s1.liveMonitorTasks - 1 },
       [.actionEv "stability_check", .solvedEv])
    else (s1, [.actionEv "stability_check"])

/-- Run `n` consecutive monitor seconds with no tilt events in between. -/
def stabRunTicks : Nat → StabState → StabState × List MEvent
  | 0, s => (s, [])
  | n + 1, s =>
    let p := stabMonitorTick s
    let q := stabRunTicks n p.1
    (q.1, p.2 ++ q.2)

/-- Deliver `n` consecutive tilt events. -/
def stabRunTilts : Nat → StabState → StabState × List MEvent
  | 0, s => (s, [])
  | n + 1, s =>
    let p := stabTiltEvent s
    let q := stabRunTilts n p.1
    (q.1, p.2 ++ q.2)

/-! ## Game orchestrator (`game_controller.py`)

The controller of this repository owns three modules (`self.modules = {"wires",
"simon", "magnet"}`).  For the strike bookkeeping only each module's
activation state matters, so the module set is embedded as one `ModuleState`
per module. -/

/-- `GamePhase` enum of `game_controller.py`. -/
inductive GamePhase where
  | idle
  | waiting
  | reconnecting
  | playing
  | won
  | lost
deriving DecidableEq, Repr

/-- The three modules held in `GameController.modules`. -/
inductive ModName where
  | wires
  | simon
  | magnet
deriving DecidableEq, Repr

structure ModuleSet where
  wires : ModuleState
  simon : ModuleState
  magnet : ModuleState
deriving DecidableEq, Repr

def ModuleSet.get (ms : ModuleSet) : ModName → ModuleState
  | .wires => ms.wires
  | .simon => ms.simon
  | .magnet => ms.magnet

/-- `module.deactivate()` on every module, as done by `_game_won` /
`_game_lost` (each variant's `deactivate` sets `_state = INACTIVE`). -/
def ModuleSet.allInactive : ModuleSet :=
  { wires := .inactive, simon := .inactive, magnet := .inactive }

structure GCState where
  phase : GamePhase
  strikes : Nat
  maxStrikes : Nat
  timeRemaining : Nat
  activeModuleIndex : Nat
  moduleIds : List (String × String)
  moduleOrder : List String
  mods : ModuleSet
deriving DecidableEq, Repr

/-- `GameController.__init__` state. -/
def gcInit : GCState :=
  { phase := .idle
    strikes := 0
    maxStrikes := 3
    timeRemaining := 0
    activeModuleIndex := 0
    moduleIds := []
    moduleOrder := []
    mods := ModuleSet.allInactive }

/-- `GameController._game_lost`: phase becomes LOST and every module is
deactivated. -/
def gameLost (s : GCState) : GCState :=
  { s with phase := .lost, mods := ModuleSet.allInactive }

/-- `GameController._on_module_strike`: increments the local counter, and on
reaching `max_strikes` performs the local lost transition. -/
def onModuleStrike (s : GCState) : GCState :=
  let s1 := { s with strikes := s.strikes + 1 }
  if s1.strikes ≥ s1.maxStrikes then gameLost s1 else s1

/-- `GameController._on_server_strike`: the server-authoritative count
replaces the local counter; nothing else changes (no max-strikes check, no
phase change). -/
def onServerStrike (count : Nat) (s : GCState) : GCState :=
  { s with strikes := count }

/-- The strike-related events of the orchestrator: a strike reported by a
local module's handler (only deliverable while that module is ACTIVE, since
every hardware handler returns early otherwise) and a server-authoritative
strike-count push. -/
inductive StrikeEv where
  | moduleStrike (m : ModName)
  | serverStrike (count : Nat)
deriving DecidableEq, Repr

/-- One step of the orchestrator on a strike event.  A module strike from an
inactive module is a no-op (the module handler never reaches
`_report_strike`). -/
def strikeStep (s : GCState) : StrikeEv → GCState
  | .moduleStrike m => if s.mods.get m = .active then onModuleStrike s else s
  | .serverStrike k => onServerStrike k s

def strikeRun (s : GCState) : List StrikeEv → GCState
  | [] => s
  | e :: rest => strikeRun (strikeStep s e) rest

/-- Number of steps in a run that transition the phase into LOST. -/
def lostTransitions (s : GCState) : List StrikeEv → Nat
  | [] => 0
  | e :: rest =>
    let t := strikeStep s e
    (if s.phase ≠ .lost ∧ t.phase = .lost then 1 else 0) + lostTransitions t rest

/-! ### `game_started` handling (`GameController._on_game_started`) -/

/-- One entry of the `modules` array of the `game_started` payload. -/
structure ModulePayload where
  id : String
  mtype : String
  mstate : String
deriving DecidableEq, Repr

/-- The `game_started` payload fields consumed by `_on_game_started`
(`dict.get` with defaults). -/
structure GameStartedData where
  timeLimit : Option Nat
  maxStrikes : Option Nat
  activeModuleIndex : Option Nat
  modules : List ModulePayload
deriving DecidableEq, Repr

/-- The module types present in `GameController.modules`. -/
def knownTypes : List String := ["wires", "simon", "magnet"]

/-- The module-id mapping built by `_on_game_started`: one `(type, id)` entry
per payload module whose type is known, in payload order. -/
def buildModuleIds (mods : List ModulePayload) : List (String × String) :=
  (mods.filter fun m => knownTypes.contains m.mtype).map fun m => (m.mtype, m.id)

/-- The module order built by `_on_game_started`. -/
def buildModuleOrder (mods : List ModulePayload) : List String :=
  (mods.filter fun m => knownTypes.contains m.mtype).map fun m => m.mtype

/-- `activate()` is called on each payload module of known type whose state is
`"active"`; other modules keep their previous state. -/
def applyActivations (mods : List ModulePayload) (ms : ModuleSet) : ModuleSet :=
  mods.foldl
    (fun acc m =>
      if m.mstate = "active" then
        match m.mtype with
        | "wires" => { acc with wires := .active }
        | "simon" => { acc with simon := .active }
        | "magnet" => { acc with magnet := .active }
        | _ => acc
      else acc)
    ms

/-- `GameController._on_game_started`. -/
def onGameStarted (d : GameStartedData) (s : GCState) : GCState :=
  { s with phase := .playing
           timeRemaining := d.timeLimit.getD 300
           strikes := 0
           maxStrikes := d.maxStrikes.getD 3
           activeModuleIndex := d.activeModuleIndex.getD 0
           moduleIds := buildModuleIds d.modules
           moduleOrder := buildModuleOrder d.modules
           mods := applyActivations d.modules s.mods }

/-! ## Protocol client strike handling (`network/ws_client.py`)

`GameClient._on_strike` reads `data.get("strikes", 0)` from the message data
mapping and hands the count to the orchestrator callback
(`GameController._on_server_strike`). -/

/-- The count a `strike` message carries: the value under the `"strikes"` key,
defaulting to 0 when the key is absent. -/
def strikeMsgCount (data : List (String × Nat)) : Nat :=
  (data.lookup "strikes").getD 0

/-- Inbound `strike` message handling end to end: `GameClient._on_strike`
followed by `GameController._on_server_strike`. -/
def clientOnStrike (data : List (String × Nat)) (s : GCState) : GCState :=
  onServerStrike (strikeMsgCount data) s

/-! ## Connectivity wait loop (`network/connectivity.py`)

`wait_for_connection` run with a positive `max_attempts`.  The two probes are
environment behaviour, modelled as attempt-indexed oracles (`internet k` /
`server k` is the outcome of the respective TCP probe on attempt `k`).  The
loop increments `attempt` at the top of every iteration; on a failed internet
check the server probe is skipped.  The `fuel` argument is `max_attempts -
attempt`, a structural-recursion bound: the loop itself returns `False` as
soon as a failing attempt has `attempt >= max_attempts`, so the fuel never
runs out when it starts at `max_attempts`.  The second component counts the
probe attempts performed. -/

def waitGo (internet server : Nat → Bool) (maxAttempts : Nat) :
    Nat → Nat → Bool × Nat
  | _, 0 => (false, 0)
  | attempt, fuel + 1 =>
    let a := attempt + 1
    if internet a then
      if server a then (true, 1)
      else if maxAttempts ≤ a then (false, 1)
      else
        let r := waitGo internet server maxAttempts a fuel
        (r.1, r.2 + 1)
    else if maxAttempts ≤ a then (false, 1)
    else
      let r := waitGo internet server maxAttempts a fuel
      (r.1, r.2 + 1)

/-- `wait_for_connection(server_url, check_interval, max_attempts)` with
`max_attempts` set: returns whether it connected, paired with the number of
probe attempts performed. -/
def waitForConnection (internet server : Nat → Bool) (maxAttempts : Nat) :
    Bool × Nat :=
  waitGo internet server maxAttempts 0 maxAttempts

/-! ## Helper lemmas -/

/-- Setting one entry of a boolean list to `true` never turns another `true`
entry off: reading any index that held `true` still yields `true`. -/
theorem getD_set_true (l : List Bool) (i j : Nat) (h : l.getD j false = true) :
    (l.set i true).getD j false = true := by
  rcases eq_or_ne i j with rfl | hne
  · by_cases hlen : i < l.length
    · simp [List.getD_eq_getElem?_getD, List.getElem?_set_self, hlen]
    · rw [List.set_eq_of_length_le (by omega)]
      exact h
  · rwa [List.getD_eq_getElem?_getD, List.getElem?_set_ne hne,
      ← List.getD_eq_getElem?_getD]

/-- Reading the first element after a prefix of an append. -/
theorem getD_append_cons (xs : List Nat) (d : Nat) (ds : List Nat) :
    (xs ++ d :: ds).getD xs.length 0 = d := by
  rw [List.getD_eq_getElem?_getD, List.getElem?_append_right (Nat.le_refl _)]
  simp

/-- The LOST phase is absorbing under strike events: a server push never
changes the phase and a module strike can only move the phase to LOST. -/
theorem strikeStep_lost (s : GCState) (e : StrikeEv) (h : s.phase = .lost) :
    (strikeStep s e).phase = .lost := by
  cases e with
  | moduleStrike m =>
      simp only [strikeStep]
      split
      · simp only [onModuleStrike]
        split
        · simp [gameLost]
        · exact h
      · exact h
  | serverStrike k => simpa [strikeStep, onServerStrike] using h

/-- Starting from LOST, no strike event counts as a lost transition. -/
theorem lostTransitions_of_lost (evs : List StrikeEv) :
    ∀ s : GCState, s.phase = .lost → lostTransitions s evs = 0 := by
  induction evs with
  | nil => intro s _; rfl
  | cons e rest ih =>
    intro s h
    simp only [lostTransitions]
    rw [if_neg (by simp [h]), ih _ (strikeStep_lost s e h)]

/-- In any run of strike events the phase transitions into LOST at most
once. -/
theorem lostTransitions_le_one (evs : List StrikeEv) :
    ∀ s : GCState, lostTransitions s evs ≤ 1 := by
  induction evs with
  | nil => intro s; simp [lostTransitions]
  | cons e rest ih =>
    intro s
    simp only [lostTransitions]
    by_cases hc : s.phase ≠ .lost ∧ (strikeStep s e).phase = .lost
    · rw [if_pos hc, lostTransitions_of_lost rest _ hc.2]
    · rw [if_neg hc]
      simpa using ih (strikeStep s e)

/-- Entering the remaining digits of the code, one by one, from any ACTIVE
keypad state whose entered progress is a prefix of the code with `rest` left
to enter: the module ends SOLVED with exactly one solved event and no
strike. -/
theorem keypadEnterAll_correct (rest : List Nat) :
    ∀ s : KeypadState, s.state = .active → s.code = s.entered ++ rest →
    rest ≠ [] →
    (keypadEnterAll rest s).1.state = .solved ∧
    countSolved (keypadEnterAll rest s).2 = 1 ∧
    countStrikes (keypadEnterAll rest s).2 = 0 := by
  induction rest with
  | nil => intro s _ _ hne; exact absurd rfl hne
  | cons d ds ih =>
    intro s hs hcode _
    have hpos : s.entered.length < s.code.length := by
      rw [hcode, List.length_append, List.length_cons]; omega
    have hget : s.code[s.entered.length] = d := by
      have h0 : s.code.getD s.entered.length 0 = d := by
        rw [hcode]; exact getD_append_cons _ _ _
      simpa [List.getD_eq_getElem?_getD, List.getElem?_eq_getElem hpos] using h0
    cases ds with
    | nil =>
      have hlen : s.entered.length + 1 = s.code.length := by
        rw [hcode]; simp
      have hstep : keypadEnter d s =
          ({ s with state := .solved, entered := s.entered ++ [d], currentDigit := 0 },
           [.actionEv "rotate", .actionEv "confirm", .solvedEv]) := by
        simp [keypadEnter, keypadOnRotate, keypadOnConfirm, hs, hpos, hget, hlen]
      have hunfold : keypadEnterAll [d] s =
          ((keypadEnterAll [] (keypadEnter d s).1).1,
           (keypadEnter d s).2 ++ (keypadEnterAll [] (keypadEnter d s).1).2) := rfl
      rw [hunfold, hstep]
      refine ⟨rfl, ?_, ?_⟩ <;>
        simp [keypadEnterAll, countSolved, countStrikes, isSolvedEv, isStrikeEv]
    | cons e es =>
      have hnlen : ¬ (s.entered.length + 1 = s.code.length) := by
        rw [hcode]; simp
      have hstep : keypadEnter d s =
          ({ s with entered := s.entered ++ [d], currentDigit := 0 },
           [.actionEv "rotate", .actionEv "confirm"]) := by
        simp [keypadEnter, keypadOnRotate, keypadOnConfirm, hs, hpos, hget, hnlen]
      have ih2 := ih { s with entered := s.entered ++ [d], currentDigit := 0 }
        hs (by rw [hcode]; simp) (by simp)
      have hunfold : keypadEnterAll (d :: e :: es) s =
          ((keypadEnterAll (e :: es) (keypadEnter d s).1).1,
           (keypadEnter d s).2 ++ (keypadEnterAll (e :: es) (keypadEnter d s).1).2) := rfl
      rw [hunfold, hstep]
      refine ⟨ih2.1, ?_, ?_⟩
      · have h1 := ih2.2.1
        simp only [countSolved, List.countP_append] at h1 ⊢
        simp [isSolvedEv, h1]
      · have h2 := ih2.2.2
        simp only [countStrikes, List.countP_append] at h2 ⊢
        simp [isStrikeEv, h2]

/-- Correctness of the bounded probe loop, generalised over the loop state:
with `fuel = maxAttempts - attempt` remaining iterations, the loop performs at
most `fuel` further probe attempts and succeeds exactly when some later
attempt (numbered `attempt + 1` to `maxAttempts`) has both probes succeed. -/
theorem waitGo_spec (internet server : Nat → Bool) (n : Nat) :
    ∀ fuel attempt, attempt + fuel = n → 0 < fuel →
    (waitGo internet server n attempt fuel).2 ≤ fuel ∧
    ((waitGo internet server n attempt fuel).1 = true ↔
      ∃ k, attempt < k ∧ k ≤ n ∧ internet k = true ∧ server k = true) := by
  intro fuel
  induction fuel with
  | zero => intro attempt _ h0; exact absurd h0 (by omega)
  | succ f ih =>
    intro attempt hsum _
    by_cases hi : internet (attempt + 1) = true
    · by_cases hsv : server (attempt + 1) = true
      · have hres : waitGo internet server n attempt (f + 1) = (true, 1) := by
          simp [waitGo, hi, hsv]
        rw [hres]
        refine ⟨by omega, ?_⟩
        constructor
        · intro _
          exact ⟨attempt + 1, by omega, by omega, hi, hsv⟩
        · intro _
          rfl
      · by_cases hmax : n ≤ attempt + 1
        · have hres : waitGo internet server n attempt (f + 1) = (false, 1) := by
            simp [waitGo, hi, hsv, hmax]
          rw [hres]
          refine ⟨by omega, ?_⟩
          constructor
          · intro hcontra
            exact absurd hcontra (by simp)
          · rintro ⟨k, hk1, hk2, _, hsk⟩
            have hk : k = attempt + 1 := by omega
            rw [hk] at hsk
            exact absurd hsk hsv
        · have hf : 0 < f := by omega
          have ih2 := ih (attempt + 1) (by omega) hf
          have hres : waitGo internet server n attempt (f + 1) =
              ((waitGo internet server n (attempt + 1) f).1,
               (waitGo internet server n (attempt + 1) f).2 + 1) := by
            simp [waitGo, hi, hsv, hmax]
          rw [hres]
          refine ⟨by have := ih2.1; omega, ?_⟩
          rw [ih2.2]
          constructor
          · rintro ⟨k, hk1, hk2, hik, hsk⟩
            exact ⟨k, by omega, hk2, hik, hsk⟩
          · rintro ⟨k, hk1, hk2, hik, hsk⟩
            refine ⟨k, ?_, hk2, hik, hsk⟩
            rcases Nat.lt_or_ge (attempt + 1) k with h | h
            · exact h
            · have hk : k = attempt + 1 := by omega
              rw [hk] at hsk
              exact absurd hsk hsv
    · by_cases hmax : n ≤ attempt + 1
      · have hres : waitGo internet server n attempt (f + 1) = (false, 1) := by
          simp [waitGo, hi, hmax]
        rw [hres]
        refine ⟨by omega, ?_⟩
        constructor
        · intro hcontra
          exact absurd hcontra (by simp)
        · rintro ⟨k, hk1, hk2, hik, _⟩
          have hk : k = attempt + 1 := by omega
          rw [hk] at hik
          exact absurd hik hi
      · have hf : 0 < f := by omega
        have ih2 := ih (attempt + 1) (by omega) hf
        have hres : waitGo internet server n attempt (f + 1) =
            ((waitGo internet server n (attempt + 1) f).1,
             (waitGo internet server n (attempt + 1) f).2 + 1) := by
          simp [waitGo, hi, hmax]
        rw [hres]
        refine ⟨by have := ih2.1; omega, ?_⟩
        rw [ih2.2]
        constructor
        · rintro ⟨k, hk1, hk2, hik, hsk⟩
          exact ⟨k, by omega, hk2, hik, hsk⟩
        · rintro ⟨k, hk1, hk2, hik, hsk⟩
          refine ⟨k, ?_, hk2, hik, hsk⟩
          rcases Nat.lt_or_ge (attempt + 1) k with h | h
          · exact h
          · have hk : k = attempt + 1 := by omega
            rw [hk] at hik
            exact absurd hik hi

/-! ## Claims -/

/-- A wires module as configured for a game (the config dict of this variant
carries no cut-order key; `configure` reads only `"wire_enabled"`). -/
def wiresDemo : WiresState :=
  wiresActivate (wiresConfigure { wireEnabled := none } wiresInit)

/-- Claim C1, counterexample: cutting wires 1, 3, 0 in order does NOT produce
`solved = true` (the module has no local cut-order validation: it stays ACTIVE
and reports no solved event), and cutting 1 then 0 produces zero strikes, not
one. -/
theorem C1_no_local_cut_order_counterexample :
    (wiresPressAll [1, 3, 0] wiresDemo).1.state ≠ .solved ∧
    countSolved (wiresPressAll [1, 3, 0] wiresDemo).2 = 0 ∧
    countStrikes (wiresPressAll [1, 0] wiresDemo).2 = 0 := by
  decide

/-- Claim C1 (amended): the wires module is server-authoritative.  Cutting
wires 1, 3, 0 in order marks them cut and forwards three `cut_wire` actions
with no local solved or strike event; the module is marked solved only by the
server response.  Cutting 1 then 0 produces no strike and wire 1 remains cut;
no button press ever un-cuts a cut wire. -/
theorem C1_wires_server_authoritative :
    ((wiresPressAll [1, 3, 0] wiresDemo).2 =
       [.actionEv "cut_wire", .actionEv "cut_wire", .actionEv "cut_wire"] ∧
     (wiresPressAll [1, 3, 0] wiresDemo).1.wireCut = [true, true, false, true] ∧
     (wiresPressAll [1, 3, 0] wiresDemo).1.state = .active ∧
     (wiresHandleServerResponse true true (wiresPressAll [1, 3, 0] wiresDemo).1).1.state
       = .solved ∧
     countSolved
       (wiresHandleServerResponse true true (wiresPressAll [1, 3, 0] wiresDemo).1).2 = 1) ∧
    (countStrikes (wiresPressAll [1, 0] wiresDemo).2 = 0 ∧
     (wiresPressAll [1, 0] wiresDemo).1.wireCut.getD 1 false = true) ∧
    (∀ (s : WiresState) (i j : Nat), s.wireCut.getD j false = true →
      (wiresOnButtonPress i s).1.wireCut.getD j false = true) := by
  refine ⟨by decide, by decide, ?_⟩
  intro s i j h
  simp only [wiresOnButtonPress]
  split
  · exact h
  · split
    · exact h
    · split
      · exact h
      · simpa using getD_set_true s.wireCut i j h

/-- Claim C1, witness for the universally quantified no-un-cut part. -/
theorem C1_wires_server_authoritative_witness :
    (wiresOnButtonPress 0 (wiresPressAll [1] wiresDemo).1).1.wireCut.getD 1 false = true :=
  C1_wires_server_authoritative.2.2 (wiresPressAll [1] wiresDemo).1 0 1 (by decide)

/-- Claim C2, counterexample: after two consecutive `activate()` calls on the
magnet module with no intervening `deactivate()`, two timer threads are live,
not one (`activate` unconditionally starts a new thread and clears the stop
event, so the first thread keeps running). -/
theorem C2_double_activation_counterexample :
    (magnetActivate (magnetActivate (magnetConfigure { safeZones := none, required := none }
      magnetInit))).liveTimerTasks = 2 ∧
    (magnetActivate (magnetActivate (magnetConfigure { safeZones := none, required := none }
      magnetInit))).liveTimerTasks ≠ 1 := by
  decide

/-- Claim C2 (amended): a second `activate()` while Active leaves the state
Active and re-resets the progress counters (all non-task fields equal those
after a single `activate()`), but it is not a no-op for background tasks: for
the time-driven modules it starts one additional timer/monitor thread, so two
tasks are live after two consecutive activations.  Modules without background
tasks (wires, keypad) are left exactly as a single `activate()` leaves them. -/
theorem C2_double_activation_amended :
    (∀ s : MagnetState, magnetActivate (magnetActivate s) =
      { magnetActivate s with liveTimerTasks := (magnetActivate s).liveTimerTasks + 1 }) ∧
    (∀ s : StabState, stabActivate (stabActivate s) =
      { stabActivate s with liveMonitorTasks := (stabActivate s).liveMonitorTasks + 1 }) ∧
    (stabActivate (stabActivate stabInit)).liveMonitorTasks = 2 ∧
    (∀ s : WiresState, wiresActivate (wiresActivate s) = wiresActivate s) ∧
    (∀ s : KeypadState, keypadActivate (keypadActivate s) = keypadActivate s) :=
  ⟨fun _ => rfl, fun _ => rfl, rfl, fun _ => rfl, fun _ => rfl⟩

/-- Claim C3: handling a server-authoritative strike count `k` sets the local
strike counter to exactly `k`, whatever its prior value — an assignment, not
an addition (replacing the prior count by anything else gives the same
result). -/
theorem C3_server_strike_assignment :
    ∀ (s : GCState) (k : Nat),
      (onServerStrike k s).strikes = k ∧
      onServerStrike k s = onServerStrike k { s with strikes := 0 } :=
  fun _ _ => ⟨rfl, rfl⟩

/-- An orchestrator state in a running game: PLAYING, no strikes yet,
`max_strikes = 3`, the wires module active. -/
def gcDemo : GCState :=
  { gcInit with
      phase := .playing
      mods := { wires := .active, simon := .inactive, magnet := .inactive } }

/-- Claim C4, counterexample: a server strike-count push that raises the local
counter to `max_strikes` does NOT trigger the local lost transition —
`_on_server_strike` only assigns the counter, so the phase stays PLAYING and
the run records zero lost transitions. -/
theorem C4_server_push_no_lost_counterexample :
    (strikeStep gcDemo (.serverStrike 3)).strikes = 3 ∧
    gcDemo.maxStrikes = 3 ∧
    (strikeStep gcDemo (.serverStrike 3)).phase = .playing ∧
    lostTransitions gcDemo [.serverStrike 3] = 0 := by
  decide

/-- Claim C4 (amended): only a local module strike checks the max-strikes
threshold — a server strike-count push never changes the phase, even when it
makes `strikes ≥ max_strikes`; a module strike delivered while that module is
Active that brings the counter to the threshold sets the phase to LOST and
deactivates every module; and in any run of strike events the transition into
LOST occurs at most once (LOST is absorbing for strike events). -/
theorem C4_lost_once_amended :
    (∀ (s : GCState) (k : Nat), (strikeStep s (.serverStrike k)).phase = s.phase) ∧
    (∀ (s : GCState) (m : ModName), s.mods.get m = .active →
      s.maxStrikes ≤ s.strikes + 1 →
      (strikeStep s (.moduleStrike m)).phase = .lost ∧
      (strikeStep s (.moduleStrike m)).mods = ModuleSet.allInactive) ∧
    (∀ (s : GCState) (evs : List StrikeEv), lostTransitions s evs ≤ 1) := by
  refine ⟨fun _ _ => rfl, ?_, fun s evs => lostTransitions_le_one evs s⟩
  intro s m hm hge
  simp [strikeStep, hm, onModuleStrike, gameLost, hge]

/-- Claim C4, witness for the module-strike part of the amended claim. -/
theorem C4_lost_once_amended_witness :
    (strikeStep { gcDemo with strikes := 2 } (.moduleStrike .wires)).phase = .lost ∧
    (strikeStep { gcDemo with strikes := 2 } (.moduleStrike .wires)).mods
      = ModuleSet.allInactive :=
  C4_lost_once_amended.2.1 { gcDemo with strikes := 2 } .wires (by decide) (by decide)

/-- Initial state from `SimonModule.__init__`. -/
def simonInit : SimonState :=
  { state := .inactive
    sequence := []
    totalRounds := 0
    currentRound := 0
    playerPosition := 0
    showingSequence := false
    currentColorIndex := 0 }

/-- Claim C5: every hardware event handler — wires button press, keypad
rotate and confirm, simon touch, magnet change, stability tilt — delivered
while the module's state is not Active returns early: the module state is
unchanged and no action, strike or solved event is reported. -/
theorem C5_inactive_handlers_noop :
    (∀ (s : WiresState) (i : Nat), s.state ≠ .active →
      wiresOnButtonPress i s = (s, [])) ∧
    (∀ (s : KeypadState) (v : Nat), s.state ≠ .active →
      keypadOnRotate v s = (s, [])) ∧
    (∀ s : KeypadState, s.state ≠ .active → keypadOnConfirm s = (s, [])) ∧
    (∀ s : SimonState, s.state ≠ .active → simonOnTouch s = (s, [])) ∧
    (∀ (s : MagnetState) (d : Bool), s.state ≠ .active →
      magnetOnMagnetChange d s = (s, [])) ∧
    (∀ s : StabState, s.state ≠ .active → stabOnTilt s = (s, [])) := by
  refine ⟨?_, ?_, ?_, ?_, ?_, ?_⟩
  · intro s i h
    simp [wiresOnButtonPress, h]
  · intro s v h
    simp [keypadOnRotate, h]
  · intro s h
    simp [keypadOnConfirm, h]
  · intro s h
    simp [simonOnTouch, h]
  · intro s d h
    simp [magnetOnMagnetChange, h]
  · intro s h
    simp [stabOnTilt, h]

/-- Claim C5, witness: every handler applied to its freshly constructed
(inactive) module state. -/
theorem C5_inactive_handlers_noop_witness :
    wiresOnButtonPress 0 wiresInit = (wiresInit, []) ∧
    keypadOnRotate 5 keypadInit = (keypadInit, []) ∧
    keypadOnConfirm keypadInit = (keypadInit, []) ∧
    simonOnTouch simonInit = (simonInit, []) ∧
    magnetOnMagnetChange true magnetInit = (magnetInit, []) ∧
    stabOnTilt stabInit = (stabInit, []) :=
  ⟨C5_inactive_handlers_noop.1 wiresInit 0 (by decide),
   C5_inactive_handlers_noop.2.1 keypadInit 5 (by decide),
   C5_inactive_handlers_noop.2.2.1 keypadInit (by decide),
   C5_inactive_handlers_noop.2.2.2.1 simonInit (by decide),
   C5_inactive_handlers_noop.2.2.2.2.1 magnetInit true (by decide),
   C5_inactive_handlers_noop.2.2.2.2.2 stabInit (by decide)⟩

/-- Claim C6: for every nonempty keypad code, confirming the full correct
code in order from a fresh activation yields exactly one solved event and
zero strikes; and from any Active state with the code not yet complete,
confirming a single wrong digit yields exactly one strike and no solved
event, empties the entered progress, and leaves the required code
unchanged. -/
theorem C6_keypad_validation :
    (∀ code : List Nat, code ≠ [] →
      (keypadEnterAll code
        (keypadActivate (keypadConfigure { code := some code } keypadInit))).1.state
          = .solved ∧
      countSolved (keypadEnterAll code
        (keypadActivate (keypadConfigure { code := some code } keypadInit))).2 = 1 ∧
      countStrikes (keypadEnterAll code
        (keypadActivate (keypadConfigure { code := some code } keypadInit))).2 = 0) ∧
    (∀ (s : KeypadState) (d : Nat), s.state = .active →
      s.entered.length < s.code.length →
      ¬ (d = s.code.getD s.entered.length 0) →
      countStrikes (keypadEnter d s).2 = 1 ∧
      countSolved (keypadEnter d s).2 = 0 ∧
      (keypadEnter d s).1.entered = [] ∧
      (keypadEnter d s).1.code = s.code) := by
  constructor
  · intro code hne
    exact keypadEnterAll_correct code
      (keypadActivate (keypadConfigure { code := some code } keypadInit))
      rfl (by simp [keypadActivate, keypadConfigure, keypadInit]) hne
  · intro s d hs hpos hne
    have hneE : ¬ (d = s.code[s.entered.length]) := by
      intro hd
      apply hne
      rw [List.getD_eq_getElem?_getD, List.getElem?_eq_getElem hpos]
      simpa using hd
    have hstep : keypadEnter d s =
        ({ s with entered := [], currentDigit := 0 },
         [.actionEv "rotate", .actionEv "confirm", .strikeEv]) := by
      simp [keypadEnter, keypadOnRotate, keypadOnConfirm, hs, hpos, hneE]
    rw [hstep]
    refine ⟨?_, ?_, rfl, rfl⟩ <;>
      simp [countStrikes, countSolved, isStrikeEv, isSolvedEv]

/-- Claim C6, witness: the code `[1, 2]` entered correctly, and the wrong
digit 9 confirmed at position 0. -/
theorem C6_keypad_validation_witness :
    ((keypadEnterAll [1, 2]
        (keypadActivate (keypadConfigure { code := some [1, 2] } keypadInit))).1.state
          = .solved ∧
      countSolved (keypadEnterAll [1, 2]
        (keypadActivate (keypadConfigure { code := some [1, 2] } keypadInit))).2 = 1 ∧
      countStrikes (keypadEnterAll [1, 2]
        (keypadActivate (keypadConfigure { code := some [1, 2] } keypadInit))).2 = 0) ∧
    (countStrikes (keypadEnter 9
        (keypadActivate (keypadConfigure { code := some [1, 2] } keypadInit))).2 = 1) :=
  ⟨C6_keypad_validation.1 [1, 2] (by decide),
   (C6_keypad_validation.2
      (keypadActivate (keypadConfigure { code := some [1, 2] } keypadInit)) 9
      rfl (by decide) (by decide)).1⟩

/-- The stability module of the C7 scenario: configured with `max_tilts = 3`
and `stable_duration = 10`, freshly activated. -/
def stabDemo : StabState :=
  stabActivate (stabConfigure { maxTilts := some 3, stableDuration := some 10 } stabInit)

/-- Claim C7: with `max_tilts = 3` and `stable_duration = 10`, ten monitored
seconds without a tilt yield exactly one solved event and no strike; every
tilt while Active zeroes the elapsed stable time and increments the tilt
counter, which resets to 0 with a strike on reaching the maximum (not
latched); and three straight tilts from activation yield exactly one strike,
no solved event, and a tilt counter back at 0. -/
theorem C7_stability_scenario :
    (countSolved (stabRunTicks 10 stabDemo).2 = 1 ∧
     countStrikes (stabRunTicks 10 stabDemo).2 = 0 ∧
     (stabRunTicks 10 stabDemo).1.state = .solved) ∧
    (∀ s : StabState, s.state = .active →
      (stabTiltEvent s).1.stableTime = 0 ∧
      (stabTiltEvent s).1.tiltCount =
        (if s.maxTilts ≤ s.tiltCount + 1 then 0 else s.tiltCount + 1) ∧
      countStrikes (stabTiltEvent s).2 =
        (if s.maxTilts ≤ s.tiltCount + 1 then 1 else 0)) ∧
    (countStrikes (stabRunTilts 3 stabDemo).2 = 1 ∧
     countSolved (stabRunTilts 3 stabDemo).2 = 0 ∧
     (stabRunTilts 3 stabDemo).1.tiltCount = 0) := by
  refine ⟨by decide, ?_, by decide⟩
  intro s hs
  by_cases hc : s.maxTilts ≤ s.tiltCount + 1
  · simp [stabTiltEvent, stabOnTilt, hs, hc, countStrikes, isStrikeEv]
  · simp [stabTiltEvent, stabOnTilt, hs, hc, countStrikes, isStrikeEv]

/-- Claim C7, witness for the universally quantified tilt part. -/
theorem C7_stability_scenario_witness :
    (stabTiltEvent stabDemo).1.stableTime = 0 ∧
    (stabTiltEvent stabDemo).1.tiltCount =
      (if stabDemo.maxTilts ≤ stabDemo.tiltCount + 1 then 0 else stabDemo.tiltCount + 1) ∧
    countStrikes (stabTiltEvent stabDemo).2 =
      (if stabDemo.maxTilts ≤ stabDemo.tiltCount + 1 then 1 else 0) :=
  C7_stability_scenario.2.1 stabDemo (by decide)

/-- Claim C8: for every positive `max_attempts = n`, the connectivity wait
loop performs at most `n` probe attempts, and returns `true` exactly when on
some attempt numbered at most `n` both the generic internet check and the
server reachability check succeed on that same attempt; otherwise it returns
`false`. -/
theorem C8_wait_bounded_attempts :
    ∀ (internet server : Nat → Bool) (n : Nat), 1 ≤ n →
      (waitForConnection internet server n).2 ≤ n ∧
      ((waitForConnection internet server n).1 = true ↔
        ∃ k, 1 ≤ k ∧ k ≤ n ∧ internet k = true ∧ server k = true) := by
  intro internet server n hn
  have h := waitGo_spec internet server n n 0 (by omega) (by omega)
  exact ⟨h.1, h.2⟩

/-- Claim C8, witness: both probes always succeed and `max_attempts = 1`. -/
theorem C8_wait_bounded_attempts_witness :
    (waitForConnection (fun _ => true) (fun _ => true) 1).2 ≤ 1 ∧
    ((waitForConnection (fun _ => true) (fun _ => true) 1).1 = true ↔
      ∃ k, 1 ≤ k ∧ k ≤ 1 ∧ (fun _ : Nat => true) k = true ∧
        (fun _ : Nat => true) k = true) :=
  C8_wait_bounded_attempts (fun _ => true) (fun _ => true) 1 (by decide)

/-- Claim C9: handling `game_started` puts the orchestrator in PLAYING,
zeroes the local strike counter, and rebuilds the module-id mapping and
module order purely from the message payload — any previously held phase,
strike count or mapping is discarded (the result does not depend on them). -/
theorem C9_game_started_resets :
    ∀ (s : GCState) (d : GameStartedData),
      (onGameStarted d s).phase = .playing ∧
      (onGameStarted d s).strikes = 0 ∧
      (onGameStarted d s).moduleIds = buildModuleIds d.modules ∧
      (onGameStarted d s).moduleOrder = buildModuleOrder d.modules ∧
      onGameStarted d s =
        onGameStarted d
          { s with
              phase := .won
              strikes := s.strikes + 7
              moduleIds := [("keypad", "m9")]
              moduleOrder := ["keypad"] } :=
  fun _ _ => ⟨rfl, rfl, rfl, rfl, rfl⟩

/-- Claim C10: an inbound `strike` message whose data mapping lacks the
`"strikes"` key makes the client pass the default count 0 on, so the
orchestrator's local strike counter is set to 0 (not left unchanged). -/
theorem C10_strike_missing_key :
    ∀ (s : GCState) (data : List (String × Nat)),
      data.lookup "strikes" = none →
      (clientOnStrike data s).strikes = 0 := by
  intro s data h
  simp [clientOnStrike, onServerStrike, strikeMsgCount, h]

/-- Claim C10, witness: a strike message with an empty data mapping delivered
to an orchestrator holding 2 strikes. -/
theorem C10_strike_missing_key_witness :
    (clientOnStrike [] { gcInit with strikes := 2 }).strikes = 0 :=
  C10_strike_missing_key { gcInit with strikes := 2 } [] rfl

end PhotonEntropy
